import Mathlib

/-!
Verification development for the SickChill process-lifecycle module
(`SickChill.py`): database restore, shutdown/restart coordination, show
registry hydration, startup preflight, forced self-update and port
selection.  Each Python function used by the specification's claims is
shallowly embedded as an executable Lean definition; effects (filesystem,
subprocess spawn, logging, process exit) are made explicit as state or
step traces, and exceptions as `Except` / outcome values.
-/

namespace SickChillProof

/-! ## Filesystem model (for `restore_db`)

A filesystem is a map from path strings to file contents; `none` means no
file at that path.  Only regular files are modelled, matching the calls
`os.path.isfile` and `shutil.move` that `restore_db` makes. -/

def Fs : Type := String → Option String

/-- Embedding of `os.path.isfile(p)`. -/
def isfile (fs : Fs) (p : String) : Bool := (fs p).isSome

/-- Embedding of `os.path.join(d, f)` for one directory level. -/
def path_join (d f : String) : String := d ++ "/" ++ f

/-- Write content `c` at path `p`. -/
def fsSet (fs : Fs) (p c : String) : Fs := fun q => if q = p then some c else fs q

/-- Remove the file at path `p`. -/
def fsDel (fs : Fs) (p : String) : Fs := fun q => if q = p then none else fs q

/-- Run-state of a `restore_db` call: the filesystem plus a counter of how
many `shutil.move` calls have been attempted so far (used to address the
error oracle). -/
structure RState where
  fs : Fs
  opIdx : Nat

/-- One `shutil.move(a, b)` call.  `err k` says whether the `k`-th move
attempted during the run raises (modelling an arbitrary `OSError`); a move
whose source does not exist also raises, as `shutil.move` does.  On a raise
the filesystem is unchanged and the exception propagates as
`Except.error`. -/
def moveE (err : Nat → Bool) (s : RState) (a b : String) : Except RState RState :=
  if err s.opIdx then Except.error ⟨s.fs, s.opIdx + 1⟩
  else
    match s.fs a with
    | some c => Except.ok ⟨fsSet (fsDel s.fs a) b c, s.opIdx + 1⟩
    | none => Except.error ⟨s.fs, s.opIdx + 1⟩

/-- The error oracle of a run in which no move raises. -/
def noerr : Nat → Bool := fun _ => false

/-- The fixed restore manifest, in source order
(`files_list` in `SickChill.restore_db`). -/
def files_list : List String := ["sickbeard.db", "sickchill.db", "config.ini", "failed.db", "cache.db"]

/-- One iteration of the `restore_db` manifest loop, for manifest entry
`fname`, with `tstr` the `datetime.datetime.now().strftime(...)` timestamp
string of this iteration:

    src_file = os.path.join(src_dir, filename)
    dst_file = os.path.join(dst_dir, filename)
    bak_file = os.path.join(dst_dir, "{}.bak-{}".format(filename, <now>))
    sickchill_db = os.path.join(dst_dir, "sickchill.db")
    sickbeard_db = os.path.join(src_dir, "sickbeard.db")
    if os.path.isfile(src_file):
        if src_file == sickbeard_db:
            dst_file = sickchill_db
        if os.path.isfile(dst_file):
            shutil.move(dst_file, bak_file)
        shutil.move(src_file, dst_file)
-/
def restore_step (err : Nat → Bool) (src_dir dst_dir tstr fname : String) (s : RState) :
    Except RState RState :=
  let src_file := path_join src_dir fname
  let dst_file := path_join dst_dir fname
  let bak_file := path_join dst_dir (fname ++ ".bak-" ++ tstr)
  let sickchill_db := path_join dst_dir "sickchill.db"
  let sickbeard_db := path_join src_dir "sickbeard.db"
  if isfile s.fs src_file then
    let dst_file2 := if src_file = sickbeard_db then sickchill_db else dst_file
    match (if isfile s.fs dst_file2 then moveE err s dst_file2 bak_file else Except.ok s) with
    | Except.error e => Except.error e
    | Except.ok s1 => moveE err s1 src_file dst_file2
  else Except.ok s

/-- The manifest loop of `restore_db`; `i` counts loop iterations so that
`ts i` is the timestamp string the `i`-th iteration reads from the clock. -/
def restoreLoop (err : Nat → Bool) (src_dir dst_dir : String) (ts : Nat → String) :
    Nat → List String → RState → Except RState RState
  | _, [], s => Except.ok s
  | i, f :: rest, s =>
    match restore_step err src_dir dst_dir (ts i) f s with
    | Except.error e => Except.error e
    | Except.ok s1 => restoreLoop err src_dir dst_dir ts (i + 1) rest s1

/-- Embedding of `SickChill.restore_db(src_dir, dst_dir)`: run the manifest loop, then

      sickbeard_db = os.path.join(dst_dir, "sickbeard.db")
      sickchill_db = os.path.join(dst_dir, "sickchill.db")
      if os.path.isfile(sickbeard_db) and not os.path.isfile(sickchill_db):
          shutil.move(sickbeard_db, sickchill_db)
      return True
    except Exception:
      return False

The returned pair is (Python return value, resulting filesystem); an
exception anywhere in the sequence is caught by the enclosing
`try`/`except` and yields `false` with the partially-updated filesystem. -/
def restore_db (err : Nat → Bool) (src_dir dst_dir : String) (ts : Nat → String) (fs0 : Fs) :
    Bool × Fs :=
  let r0 := restoreLoop err src_dir dst_dir ts 0 files_list ⟨fs0, 0⟩
  let r1 :=
    match r0 with
    | Except.error e => Except.error e
    | Except.ok s =>
      let sickbeard_db := path_join dst_dir "sickbeard.db"
      let sickchill_db := path_join dst_dir "sickchill.db"
      if isfile s.fs sickbeard_db && !(isfile s.fs sickchill_db) then
        moveE err s sickbeard_db sickchill_db
      else Except.ok s
  match r1 with
  | Except.ok s => (true, s.fs)
  | Except.error s => (false, s.fs)

/-! ## Shutdown model (for `SickChill.shutdown`)

The teardown sequence is modelled as a straight-line function producing the
list of side-effecting steps it performed, plus the final outcome: either
the unconditional `os._exit(0)` was reached, or an exception escaped the
method.  Whether each fallible call raises is an input
(`ShutdownEnv`), since the real causes (OS errors, thread errors) are
outside the program. -/

inductive SystemEvent
  | RESTART
  | SHUTDOWN
deriving DecidableEq

/-- Observable steps of the teardown sequence. -/
inductive SStep
  | haltSched
  | saveAllShows
  | webShutdownCall
  | webJoin (timeout : Nat)
  | cacheClear
  | warnCacheClear
  | pidRemove
  | logShutdown
  | spawn (argv : List String) (cwd : String)
  | procExit (code : Nat)
deriving DecidableEq

inductive SOutcome
  | exited (code : Nat)
  | raised
deriving DecidableEq

/-- Environment of one `shutdown` call: relevant `settings` values, whether
the web server object exists, and which fallible teardown calls raise. -/
structure ShutdownEnv where
  started : Bool
  hasWebServer : Bool
  haltRaises : Bool
  saveAllRaises : Bool
  webShutdownRaises : Bool
  joinRaises : Bool
  rmtreeRaises : Bool
  removePidRaises : Bool
  popenRaises : Bool
  noRestart : Bool
  sysExecutable : String
  myFullname : String
  myArgs : List String
  cwd : String

/-- Embedding of `SickChill.clear_cache()`: the `shutil.rmtree` is wrapped in its own
`try`/`except Exception` that only logs a warning, so the call never
raises. -/
def clear_cache_trace (rmtreeRaises : Bool) : List SStep :=
  if rmtreeRaises then [SStep.cacheClear, SStep.warnCacheClear] else [SStep.cacheClear]

/-- The argv list built for the restart re-exec:
`[sys.executable, settings.MY_FULLNAME] + settings.MY_ARGS`, with
`"--nolaunch"` appended when not already present in the list. -/
def restartArgv (env : ShutdownEnv) : List String :=
  let popen_list := [env.sysExecutable, env.myFullname] ++ env.myArgs
  if popen_list.contains "--nolaunch" then popen_list else popen_list ++ ["--nolaunch"]

/-- Teardown steps after the web-server section: `clear_cache()`,
`remove_pid_file()`, the RESTART re-exec branch, the final
`logger.shutdown()` and `os._exit(0)`. -/
def shutdownTail (env : ShutdownEnv) (event : SystemEvent) (t : List SStep) :
    List SStep × SOutcome :=
  let t5 := t ++ clear_cache_trace env.rmtreeRaises ++ [SStep.pidRemove]
  if env.removePidRaises then (t5, SOutcome.raised)
  else
    if event = SystemEvent.RESTART then
      -- popen_list = [sys.executable, settings.MY_FULLNAME]; always nonempty,
      -- so `if popen_list and not settings.NO_RESTART` reduces to NO_RESTART
      if !env.noRestart then
        let t6 := t5 ++ [SStep.logShutdown, SStep.spawn (restartArgv env) env.cwd]
        if env.popenRaises then (t6, SOutcome.raised)
        else (t6 ++ [SStep.logShutdown, SStep.procExit 0], SOutcome.exited 0)
      else (t5 ++ [SStep.logShutdown, SStep.procExit 0], SOutcome.exited 0)
    else (t5 ++ [SStep.logShutdown, SStep.procExit 0], SOutcome.exited 0)

/-- Embedding of `SickChill.shutdown(event)`.  Mirrors the source line by line: only the
`web_server.join(10)` call sits in a `try`/`except` (and `clear_cache` is
internally exception-safe); an exception from any other teardown call
propagates out of the method, so the final `os._exit(0)` is not executed on
that path. -/
def shutdown (env : ShutdownEnv) (event : SystemEvent) : List SStep × SOutcome :=
  if env.started then
    let t1 := [SStep.haltSched]
    if env.haltRaises then (t1, SOutcome.raised)
    else
      let t2 := t1 ++ [SStep.saveAllShows]
      if env.saveAllRaises then (t2, SOutcome.raised)
      else
        if env.hasWebServer then
          let t3 := t2 ++ [SStep.webShutdownCall]
          if env.webShutdownRaises then (t3, SOutcome.raised)
          else
            -- join(10) is wrapped in try/except: a raise is swallowed
            let t4 := t3 ++ [SStep.webJoin 10]
            shutdownTail env event t4
        else shutdownTail env event t2
  else ([SStep.logShutdown, SStep.procExit 0], SOutcome.exited 0)

/-! ## Show registry hydration (for `SickChill.load_shows_from_db`) -/

/-- A row of the `tv_shows` table as selected by
`SELECT indexer, indexer_id, location FROM tv_shows;`. -/
structure ShowRow where
  indexer : Nat
  indexer_id : Nat
  location : String

/-- An in-memory show object, as far as hydration observes it. -/
structure TVShow where
  indexer : Nat
  indexer_id : Nat

/-- The message passed to `logger.exception` for a failed row:
`"There was an error creating the show in {}: Error {}".format(location, error)`. -/
def showErrorLine (location errText : String) : String :=
  "There was an error creating the show in " ++ location ++ ": Error " ++ errText

/-- The loop body of `load_shows_from_db` over the query results.  `build`
abstracts `TVShow(indexer, indexer_id)` followed by `nextEpisode()`: it
either yields the constructed show or the exception text of whichever of
the two raised.  A failed row contributes one `logger.exception` line and
is skipped; a successful row is appended to the registry.  Returns
(registry, error-log lines), both in row order. -/
def hydrateRows (build : ShowRow → Except String TVShow) :
    List ShowRow → List TVShow × List String
  | [] => ([], [])
  | r :: rest =>
    match build r with
    | Except.ok s =>
      let p := hydrateRows build rest
      (s :: p.1, p.2)
    | Except.error e =>
      let p := hydrateRows build rest
      (p.1, showErrorLine r.location e :: p.2)

/-- Embedding of `SickChill.load_shows_from_db()`:
`settings.showList = []` followed by the hydration loop — the previous
registry contents `prev` are discarded, never merged. -/
def load_shows_from_db (build : ShowRow → Except String TVShow) (rows : List ShowRow)
    (prev : List TVShow) : List TVShow × List String :=
  hydrateRows build rows

/-! ## Startup model (for `SickChill.start` and `SickChill.force_update`) -/

/-- Embedding of `SickChill.force_update()`: refuse on non-pip installs
(`check_installed()` false), then run `PipUpdateManager().update()`. -/
def force_update (installed pipUpdateOk : Bool) : Bool :=
  if !installed then false
  else if !pipUpdateOk then false
  else true

/-- Python truthiness of an optional int argument (`args.port`,
`args.flask_port`): `None` and `0` are falsy. -/
def portTruthy : Option Int → Bool
  | none => false
  | some p => p != 0

/-- Environment of one `start()` call: parsed arguments, `settings` values
and the answers the OS gives to the preflight `os.access` / `os.path`
queries. -/
structure StartEnv where
  forceUpdateFlag : Bool
  installed : Bool
  pipUpdateOk : Bool
  dataDir : String
  configFile : String
  configDir : String
  dataDirExists : Bool
  dataDirCreatable : Bool
  dataDirWritable : Bool
  configAccessW : Bool
  configIsFile : Bool
  configDirWritable : Bool
  restoreDirExists : Bool
  restoreOk : Bool
  forcedPort : Option Int
  webPort : Int
  flaskFlag : Bool
  flaskAvailable : Bool
  flaskPortArg : Option Int

/-- Observable phases of `start()`, in source order. -/
inductive Phase
  | argParse
  | selfUpdate
  | preflightData
  | preflightConfig
  | restoreAttempt (success : Bool)
  | configLoad
  | coreInit
  | showsLoad
  | cacheClean
  | webStart (port : Int)
  | flaskStart (port : Int)
  | schedStart
  | nameCacheBuild
  | tzBuild
  | waitLoop
deriving DecidableEq

inductive StartOutcome
  | exited (code : Nat)
  | aborted (msg : String)
  | looping
deriving DecidableEq

/-- The serving port chosen by `start()`:
`if self.forced_port: self.start_port = self.forced_port else:
self.start_port = settings.WEB_PORT` — Python truthiness, so a forced port
of `0` (like an absent one) falls back to the configured port. -/
def servingPort (env : StartEnv) : Int :=
  if portTruthy env.forcedPort then env.forcedPort.getD env.webPort else env.webPort

/-- The port the auxiliary Flask frontend binds:
`args.flask_port` when truthy, else `int(self.start_port) + 1`. -/
def flaskPort (env : StartEnv) : Int :=
  match env.flaskPortArg with
  | some p => if p = 0 then servingPort env + 1 else p
  | none => servingPort env + 1

/-- Embedding of `SickChill.start()` up to the main wait loop, as a phase trace plus
outcome.  `SystemExit(msg)` raised by a failed preflight check is the
`aborted msg` outcome; `sys.exit(int(not result))` after a forced update is
`exited code`; reaching the `while True: time.sleep(1)` loop is `looping`.
Mirrors the source order: argument parsing, the force-update branch, the
four preflight checks, the restore attempt, config load, `initialize`,
show hydration, cache cleanup, web server start, optional Flask frontend,
scheduler start, name cache, timezones, wait loop. -/
def start (env : StartEnv) : List Phase × StartOutcome :=
  let t0 := [Phase.argParse]
  if env.forceUpdateFlag then
    (t0 ++ [Phase.selfUpdate],
     StartOutcome.exited (if force_update env.installed env.pipUpdateOk then 0 else 1))
  else
    if !env.dataDirExists && !env.dataDirCreatable then
      (t0, StartOutcome.aborted ("Unable to create data directory: " ++ env.dataDir))
    else if !env.dataDirWritable then
      (t0, StartOutcome.aborted ("Data directory must be writeable: " ++ env.dataDir))
    else if !env.configAccessW && env.configIsFile then
      (t0, StartOutcome.aborted ("Config file must be writeable: " ++ env.configFile))
    else if !env.configAccessW && !env.configIsFile && !env.configDirWritable then
      (t0, StartOutcome.aborted ("Config file root dir must be writeable: " ++ env.configDir))
    else
      let t1 := t0 ++ [Phase.preflightData, Phase.preflightConfig]
      let t2 := t1 ++ (if env.restoreDirExists then [Phase.restoreAttempt env.restoreOk] else [])
      let t3 := t2 ++ [Phase.configLoad, Phase.coreInit, Phase.showsLoad, Phase.cacheClean]
      let t4 := t3 ++ [Phase.webStart (servingPort env)]
      let t5 := t4 ++
        (if env.flaskFlag && env.flaskAvailable then [Phase.flaskStart (flaskPort env)] else [])
      (t5 ++ [Phase.schedStart, Phase.nameCacheBuild, Phase.tzBuild, Phase.waitLoop],
       StartOutcome.looping)

/-- The build oracle used by the hydration witness: the row at location
`"bad"` raises, every other row constructs. -/
def buildW : ShowRow → Except String TVShow :=
  fun r => if r.location = "bad" then Except.error "boom" else Except.ok ⟨r.indexer, r.indexer_id⟩

/-- The error oracle of a run whose third move call raises. -/
def errAt2 : Nat → Bool := fun n => decide (n = 2)

/-- A concrete pre-restore filesystem: the backup directory holds
`sickbeard.db` (content `A`) and `config.ini` (content `C`); the data
directory holds `sickchill.db` (content `B`). -/
def fsC5 : Fs := fun p =>
  if p = "restore/sickbeard.db" then some "A"
  else if p = "restore/config.ini" then some "C"
  else if p = "data/sickchill.db" then some "B"
  else none

/-- The restore scenario of claim C1 as a concrete filesystem: the backup
directory holds only `sickbeard.db` (content `A`), the data directory
holds an existing `sickchill.db` (content `B`). -/
def fsC1 : Fs := fun p =>
  if p = "restore/sickbeard.db" then some "A"
  else if p = "data/sickchill.db" then some "B"
  else none

/-- The filesystem `restore_db` produces from `fsC1` with every loop
timestamp equal to `"20240101_120000"`. -/
def fsC1res : Fs := fun p =>
  if p = "data/sickchill.db" then some "A"
  else if p = "data/sickbeard.db.bak-20240101_120000" then some "B"
  else none

/-- The restore scenario of claim C10 as a concrete filesystem. -/
def fsC10 : Fs := fun p =>
  if p = "restore/sickbeard.db" then some "A"
  else if p = "restore/sickchill.db" then some "S"
  else if p = "data/sickchill.db" then some "B"
  else none

/-! ## Theorems -/

/-- Hydrating a list of rows that all build successfully logs no errors and
keeps the length. -/
theorem hydrateRows_all_ok (build : ShowRow → Except String TVShow) (l : List ShowRow)
    (h : ∀ r ∈ l, ∃ s, build r = Except.ok s) :
    (hydrateRows build l).2 = [] ∧ (hydrateRows build l).1.length = l.length := by
  induction l with
  | nil => simp [hydrateRows]
  | cons r rest ih =>
    obtain ⟨s, hs⟩ := h r (by simp)
    have ih2 := ih (fun x hx => h x (by simp [hx]))
    simp [hydrateRows, hs, ih2.1, ih2.2]

/-- Splitting lemma: hydration of `pre ++ bad :: post` where `pre` and
`post` build fine and `bad` raises `e` yields a registry of length
`pre.length + post.length` and exactly the one error line for `bad`. -/
theorem hydrateRows_one_bad (build : ShowRow → Except String TVShow)
    (pre post : List ShowRow) (bad : ShowRow) (e : String)
    (hpre : ∀ r ∈ pre, ∃ s, build r = Except.ok s)
    (hbad : build bad = Except.error e)
    (hpost : ∀ r ∈ post, ∃ s, build r = Except.ok s) :
    (hydrateRows build (pre ++ bad :: post)).1.length = pre.length + post.length
    ∧ (hydrateRows build (pre ++ bad :: post)).2 = [showErrorLine bad.location e] := by
  induction pre with
  | nil =>
    have hp := hydrateRows_all_ok build post hpost
    simp [hydrateRows, hbad, hp.1, hp.2]
  | cons r rest ih =>
    obtain ⟨s, hs⟩ := hpre r (by simp)
    have ih2 := ih (fun x hx => hpre x (by simp [hx]))
    simp only [List.cons_append, hydrateRows, hs]
    simp [ih2.1, ih2.2, Nat.succ_add]

/-- Claim C4: for a `tv_shows` table of `N` rows of which exactly one row
fails show construction or next-episode computation, `load_shows_from_db`
produces a registry of size `N - 1`, logs exactly one error line naming the
failing row's location and the causing error, does not abort, and fully
replaces the previous registry contents (the result is independent of the
previous registry). -/
theorem claim_C4 (build : ShowRow → Except String TVShow)
    (pre post : List ShowRow) (bad : ShowRow) (e : String) (prev prev2 : List TVShow)
    (hpre : ∀ r ∈ pre, ∃ s, build r = Except.ok s)
    (hbad : build bad = Except.error e)
    (hpost : ∀ r ∈ post, ∃ s, build r = Except.ok s) :
    (load_shows_from_db build (pre ++ bad :: post) prev).1.length
        = (pre ++ bad :: post).length - 1
    ∧ (load_shows_from_db build (pre ++ bad :: post) prev).2
        = [showErrorLine bad.location e]
    ∧ load_shows_from_db build (pre ++ bad :: post) prev
        = load_shows_from_db build (pre ++ bad :: post) prev2 := by
  have h := hydrateRows_one_bad build pre post bad e hpre hbad hpost
  refine ⟨?_, h.2, rfl⟩
  simp only [load_shows_from_db, h.1, List.length_append, List.length_cons]
  omega


/-- Witness for claim C4 at a concrete three-row table whose middle row
fails. -/
theorem claim_C4_witness :
    (load_shows_from_db buildW [⟨1, 10, "ok1"⟩, ⟨1, 11, "bad"⟩, ⟨1, 12, "ok2"⟩] []).1.length = 2
    ∧ (load_shows_from_db buildW [⟨1, 10, "ok1"⟩, ⟨1, 11, "bad"⟩, ⟨1, 12, "ok2"⟩] []).2
        = [showErrorLine "bad" "boom"] := by
  have h := claim_C4 buildW [⟨1, 10, "ok1"⟩] [⟨1, 12, "ok2"⟩] ⟨1, 11, "bad"⟩ "boom" [] []
    (by intro r hr; simp only [List.mem_singleton] at hr; subst hr
        exact ⟨⟨1, 10⟩, by simp [buildW]⟩)
    (by simp [buildW])
    (by intro r hr; simp only [List.mem_singleton] at hr; subst hr
        exact ⟨⟨1, 12⟩, by simp [buildW]⟩)
  exact ⟨h.1, h.2.1⟩

/-- Claim C2, counterexample: the claim as stated is false.  With the
system started, an exception raised by `sickchill.start.halt()` (the first
teardown step) is not swallowed: it propagates out of `shutdown`, and the
final `os._exit(0)` is never executed. -/
theorem claim_C2_counterexample :
    shutdown
      ⟨true, true, true, false, false, false, false, false, false, false,
       "/usr/bin/python3", "SickChill.py", [], "/data"⟩ SystemEvent.SHUTDOWN
      = ([SStep.haltSched], SOutcome.raised)
    ∧ SOutcome.raised ≠ SOutcome.exited 0 := by
  constructor
  · rfl
  · simp

/-- Claim C2 (amended): during shutdown, only a failure of the bounded
web-server `join(10)` and a failure of the cache-directory removal are
swallowed; whenever halting the scheduler, persisting shows, shutting down
the web server, removing the pid file and the restart re-exec all do not
raise, the sequence reaches final process termination with exit status 0,
for every event kind and whether or not the system was fully started. -/
theorem claim_C2 (env : ShutdownEnv) (event : SystemEvent)
    (hh : env.haltRaises = false) (hs : env.saveAllRaises = false)
    (hw : env.webShutdownRaises = false) (hp : env.removePidRaises = false)
    (ho : env.popenRaises = false) :
    (shutdown env event).2 = SOutcome.exited 0
    ∧ SStep.procExit 0 ∈ (shutdown env event).1 := by
  unfold shutdown shutdownTail clear_cache_trace
  rcases event <;> cases env.started <;> cases env.hasWebServer <;>
    cases env.rmtreeRaises <;> cases env.noRestart <;>
    simp [hh, hs, hw, hp, ho]

/-- Witness for claim C2: a concrete started environment in which both the
web-server join and the cache `rmtree` raise still exits 0. -/
theorem claim_C2_witness :
    (shutdown
      ⟨true, true, false, false, false, true, true, false, false, false,
       "/usr/bin/python3", "SickChill.py", [], "/data"⟩ SystemEvent.RESTART).2
      = SOutcome.exited 0 :=
  (claim_C2
    ⟨true, true, false, false, false, true, true, false, false, false,
     "/usr/bin/python3", "SickChill.py", [], "/data"⟩ SystemEvent.RESTART
    rfl rfl rfl rfl rfl).1

/-- The restart argv always carries the `--nolaunch` flag. -/
theorem restartArgv_mem_nolaunch (env : ShutdownEnv) : "--nolaunch" ∈ restartArgv env := by
  unfold restartArgv
  by_cases hc : "--nolaunch" ∈ [env.sysExecutable, env.myFullname] ++ env.myArgs
  · rw [if_pos (List.elem_eq_true_of_mem hc)]; exact hc
  · rw [if_neg (by simpa using hc)]
    simp

/-- Claim C3: on a fully started system with a web server, every shutdown
trigger performs the teardown in order: scheduler halt, show persistence,
web-server shutdown with a join bounded by 10 time units (a join failure
is swallowed: the trace does not depend on it), cache invalidation,
pid-file removal; then, for a RESTART event with restart not disabled by
config, a log flush followed by the spawn of the same executable with the
original arguments plus `--nolaunch` in the current working directory;
then a final log flush and exit 0.  For a SHUTDOWN event — and for a
RESTART event with restart disabled by config — the same teardown runs
with no spawn.  If the system was never fully started, every teardown
step is skipped and the process exits 0 directly. -/
theorem claim_C3 (env : ShutdownEnv)
    (h1 : env.started = true) (h2 : env.hasWebServer = true)
    (h3 : env.haltRaises = false) (h4 : env.saveAllRaises = false)
    (h5 : env.webShutdownRaises = false) (h6 : env.rmtreeRaises = false)
    (h7 : env.removePidRaises = false) (h8 : env.popenRaises = false) :
    (env.noRestart = false →
      shutdown env SystemEvent.RESTART =
        ([SStep.haltSched, SStep.saveAllShows, SStep.webShutdownCall, SStep.webJoin 10,
          SStep.cacheClear, SStep.pidRemove, SStep.logShutdown,
          SStep.spawn (restartArgv env) env.cwd, SStep.logShutdown, SStep.procExit 0],
         SOutcome.exited 0))
    ∧ shutdown env SystemEvent.SHUTDOWN =
        ([SStep.haltSched, SStep.saveAllShows, SStep.webShutdownCall, SStep.webJoin 10,
          SStep.cacheClear, SStep.pidRemove, SStep.logShutdown, SStep.procExit 0],
         SOutcome.exited 0)
    ∧ (env.noRestart = true →
        shutdown env SystemEvent.RESTART =
          ([SStep.haltSched, SStep.saveAllShows, SStep.webShutdownCall, SStep.webJoin 10,
            SStep.cacheClear, SStep.pidRemove, SStep.logShutdown, SStep.procExit 0],
           SOutcome.exited 0))
    ∧ restartArgv env
        = [env.sysExecutable, env.myFullname] ++ env.myArgs
          ++ (if ([env.sysExecutable, env.myFullname] ++ env.myArgs).contains "--nolaunch"
              then [] else ["--nolaunch"])
    ∧ "--nolaunch" ∈ restartArgv env
    ∧ (∀ env2 : ShutdownEnv, ∀ event : SystemEvent, env2.started = false →
        shutdown env2 event = ([SStep.logShutdown, SStep.procExit 0], SOutcome.exited 0)) := by
  refine ⟨?_, ?_, ?_, ?_, restartArgv_mem_nolaunch env, ?_⟩
  · intro h9
    unfold shutdown shutdownTail clear_cache_trace
    simp [h1, h2, h3, h4, h5, h6, h7, h8, h9]
  · unfold shutdown shutdownTail clear_cache_trace
    simp [h1, h2, h3, h4, h5, h6, h7, h8]
  · intro h9
    unfold shutdown shutdownTail clear_cache_trace
    simp [h1, h2, h3, h4, h5, h6, h7, h8, h9]
  · unfold restartArgv
    by_cases hc : "--nolaunch" ∈ [env.sysExecutable, env.myFullname] ++ env.myArgs
    · rw [if_pos (List.elem_eq_true_of_mem hc), if_pos (List.elem_eq_true_of_mem hc)]
      simp
    · rw [if_neg (by simpa using hc), if_neg (by simpa using hc)]
  · intro env2 event h
    unfold shutdown
    simp [h]

/-- Witness for claim C3 at concrete environments: a started system with
restart enabled (RESTART and SHUTDOWN triggers), the same system with
restart disabled by config (RESTART trigger, no spawn), and a stopped
system. -/
theorem claim_C3_witness :
    shutdown
      ⟨true, true, false, false, false, false, false, false, false, false,
       "/usr/bin/python3", "/app/SickChill.py", ["--daemon"], "/data"⟩ SystemEvent.RESTART
      = ([SStep.haltSched, SStep.saveAllShows, SStep.webShutdownCall, SStep.webJoin 10,
          SStep.cacheClear, SStep.pidRemove, SStep.logShutdown,
          SStep.spawn ["/usr/bin/python3", "/app/SickChill.py", "--daemon", "--nolaunch"] "/data",
          SStep.logShutdown, SStep.procExit 0],
         SOutcome.exited 0)
    ∧ shutdown
        ⟨true, true, false, false, false, false, false, false, false, false,
         "/usr/bin/python3", "/app/SickChill.py", ["--daemon"], "/data"⟩ SystemEvent.SHUTDOWN
        = ([SStep.haltSched, SStep.saveAllShows, SStep.webShutdownCall, SStep.webJoin 10,
            SStep.cacheClear, SStep.pidRemove, SStep.logShutdown, SStep.procExit 0],
           SOutcome.exited 0)
    ∧ shutdown
        ⟨true, true, false, false, false, false, false, false, false, true,
         "/usr/bin/python3", "/app/SickChill.py", ["--daemon"], "/data"⟩ SystemEvent.RESTART
        = ([SStep.haltSched, SStep.saveAllShows, SStep.webShutdownCall, SStep.webJoin 10,
            SStep.cacheClear, SStep.pidRemove, SStep.logShutdown, SStep.procExit 0],
           SOutcome.exited 0)
    ∧ shutdown
        ⟨false, false, false, false, false, false, false, false, false, false,
         "/usr/bin/python3", "/app/SickChill.py", [], "/data"⟩ SystemEvent.SHUTDOWN
        = ([SStep.logShutdown, SStep.procExit 0], SOutcome.exited 0) := by
  have h := claim_C3
    ⟨true, true, false, false, false, false, false, false, false, false,
     "/usr/bin/python3", "/app/SickChill.py", ["--daemon"], "/data"⟩
    rfl rfl rfl rfl rfl rfl rfl rfl
  have hnr := claim_C3
    ⟨true, true, false, false, false, false, false, false, false, true,
     "/usr/bin/python3", "/app/SickChill.py", ["--daemon"], "/data"⟩
    rfl rfl rfl rfl rfl rfl rfl rfl
  refine ⟨?_, h.2.1, hnr.2.2.1 rfl, h.2.2.2.2.2 _ SystemEvent.SHUTDOWN rfl⟩
  have harg : restartArgv
      ⟨true, true, false, false, false, false, false, false, false, false,
       "/usr/bin/python3", "/app/SickChill.py", ["--daemon"], "/data"⟩
      = ["/usr/bin/python3", "/app/SickChill.py", "--daemon", "--nolaunch"] := by decide
  have h1 := h.1 rfl
  rw [harg] at h1
  exact h1

/-- Claim C7: with the force-update flag set, the self-update runs before
any other startup step (the trace holds nothing but argument parsing and
the update) and the process exits immediately: status 0 when the update
succeeds, status 1 when the pip update fails or the deployment is not an
installed package. -/
theorem claim_C7 (env : StartEnv) (h : env.forceUpdateFlag = true) :
    start env = ([Phase.argParse, Phase.selfUpdate],
      StartOutcome.exited (if env.installed && env.pipUpdateOk then 0 else 1)) := by
  unfold start force_update
  cases hne : env.installed <;> cases hne2 : env.pipUpdateOk <;> simp [h, hne, hne2]

/-- Witness for claim C7 at three concrete environments: pip install with a
successful update (exit 0), pip install with a failed update (exit 1), and
a source checkout (exit 1). -/
theorem claim_C7_witness :
    start ⟨true, true, true, "/d", "/d/config.ini", "/d", true, true, true, true, true, true,
        false, true, none, 8081, false, false, none⟩
      = ([Phase.argParse, Phase.selfUpdate], StartOutcome.exited 0)
    ∧ start ⟨true, true, false, "/d", "/d/config.ini", "/d", true, true, true, true, true, true,
        false, true, none, 8081, false, false, none⟩
      = ([Phase.argParse, Phase.selfUpdate], StartOutcome.exited 1)
    ∧ start ⟨true, false, true, "/d", "/d/config.ini", "/d", true, true, true, true, true, true,
        false, true, none, 8081, false, false, none⟩
      = ([Phase.argParse, Phase.selfUpdate], StartOutcome.exited 1) := by
  refine ⟨?_, ?_, ?_⟩
  · exact claim_C7 _ rfl
  · exact claim_C7 _ rfl
  · exact claim_C7 _ rfl

/-- Claim C8: startup preflight aborts fatally, with a descriptive message
and before any subsystem starts (the trace holds only argument parsing),
when the data directory neither exists nor can be created; when it is not
writable; when the config file exists but is not writable; or when the
config file is absent and its parent directory is not writable.  When all
checks pass, startup continues past preflight.  The hypothesis `hos`
records the OS fact that `os.access(path, W_OK)` is false for an absent
file. -/
theorem claim_C8 (env : StartEnv) (hfu : env.forceUpdateFlag = false)
    (hos : env.configIsFile = false → env.configAccessW = false) :
    (env.dataDirExists = false → env.dataDirCreatable = false →
      start env = ([Phase.argParse],
        StartOutcome.aborted ("Unable to create data directory: " ++ env.dataDir)))
    ∧ ((env.dataDirExists = true ∨ env.dataDirCreatable = true) →
        env.dataDirWritable = false →
      start env = ([Phase.argParse],
        StartOutcome.aborted ("Data directory must be writeable: " ++ env.dataDir)))
    ∧ ((env.dataDirExists = true ∨ env.dataDirCreatable = true) →
        env.dataDirWritable = true →
        env.configIsFile = true → env.configAccessW = false →
      start env = ([Phase.argParse],
        StartOutcome.aborted ("Config file must be writeable: " ++ env.configFile)))
    ∧ ((env.dataDirExists = true ∨ env.dataDirCreatable = true) →
        env.dataDirWritable = true →
        env.configIsFile = false → env.configDirWritable = false →
      start env = ([Phase.argParse],
        StartOutcome.aborted ("Config file root dir must be writeable: " ++ env.configDir)))
    ∧ ((env.dataDirExists = true ∨ env.dataDirCreatable = true) →
        env.dataDirWritable = true →
        (env.configAccessW = true ∨ (env.configIsFile = false ∧ env.configDirWritable = true)) →
      (start env).2 = StartOutcome.looping) := by
  refine ⟨?_, ?_, ?_, ?_, ?_⟩
  · intro h1 h2
    unfold start
    simp [hfu, h1, h2]
  · rintro (h1 | h1) h2 <;> unfold start <;> simp [hfu, h1, h2]
  · rintro (h1 | h1) h2 h3 h4 <;> unfold start <;> simp [hfu, h1, h2, h3, h4]
  · rintro (h1 | h1) h2 h3 h4 <;> unfold start <;>
      simp [hfu, h1, h2, h3, h4, hos h3]
  · rintro (h1 | h1) h2 (h3 | ⟨h3, h4⟩) <;> unfold start <;>
      simp [hfu, h1, h2, h3]
    case _ => simp [h4]
    case _ => simp [h4]

/-- Witness for claim C8 at a concrete environment that passes every
preflight check and reaches the steady state. -/
theorem claim_C8_witness :
    (start ⟨false, true, true, "/d", "/d/config.ini", "/d", true, true, true, true, true, true,
        false, true, none, 8081, false, false, none⟩).2 = StartOutcome.looping := by
  have h := claim_C8 ⟨false, true, true, "/d", "/d/config.ini", "/d", true, true, true, true,
      true, true, false, true, none, 8081, false, false, none⟩ rfl (by intro h; cases h)
  exact h.2.2.2.2 (Or.inl rfl) rfl (Or.inl rfl)

/-- Claim C9, counterexample: the claim as stated is false for a forced
port of `0`.  `if self.forced_port:` uses Python truthiness, so a forced
port argument of `0` is treated like an absent one and the web server
binds the configured port instead of the forced one. -/
theorem claim_C9_counterexample :
    Phase.webStart 8081 ∈ (start ⟨false, true, true, "/d", "/d/config.ini", "/d", true, true,
        true, true, true, true, false, true, some 0, 8081, false, false, none⟩).1
    ∧ Phase.webStart 0 ∉ (start ⟨false, true, true, "/d", "/d/config.ini", "/d", true, true,
        true, true, true, true, false, true, some 0, 8081, false, false, none⟩).1 := by
  constructor
  · decide
  · decide

/-- Claim C9 (amended): a nonzero forced port overrides the configured
port; an absent forced port (and, by Python truthiness, a forced port of
`0`) leaves the web server on the configured port; and when the Flask
frontend is requested and available without an explicit flask-port, it
binds the serving port plus 1. -/
theorem claim_C9 (env : StartEnv) (hfu : env.forceUpdateFlag = false)
    (hd1 : env.dataDirExists = true) (hd2 : env.dataDirWritable = true)
    (hc1 : env.configAccessW = true) :
    (∀ p : Int, env.forcedPort = some p → p ≠ 0 →
        servingPort env = p ∧ Phase.webStart p ∈ (start env).1)
    ∧ (env.forcedPort = none →
        servingPort env = env.webPort ∧ Phase.webStart env.webPort ∈ (start env).1)
    ∧ (env.flaskFlag = true → env.flaskAvailable = true → env.flaskPortArg = none →
        Phase.flaskStart (servingPort env + 1) ∈ (start env).1) := by
  have hstart : (start env).1
      = [Phase.argParse, Phase.preflightData, Phase.preflightConfig]
        ++ (if env.restoreDirExists then [Phase.restoreAttempt env.restoreOk] else [])
        ++ [Phase.configLoad, Phase.coreInit, Phase.showsLoad, Phase.cacheClean,
            Phase.webStart (servingPort env)]
        ++ (if env.flaskFlag && env.flaskAvailable then [Phase.flaskStart (flaskPort env)] else [])
        ++ [Phase.schedStart, Phase.nameCacheBuild, Phase.tzBuild, Phase.waitLoop] := by
    unfold start
    simp [hfu, hd1, hd2, hc1]
  refine ⟨?_, ?_, ?_⟩
  · intro p hp hp0
    have hsp : servingPort env = p := by
      simp [servingPort, portTruthy, hp, hp0]
    refine ⟨hsp, ?_⟩
    rw [hstart, hsp]
    simp
  · intro hp
    have hsp : servingPort env = env.webPort := by
      simp [servingPort, portTruthy, hp]
    refine ⟨hsp, ?_⟩
    rw [hstart, hsp]
    simp
  · intro hf1 hf2 hf3
    have hfp : flaskPort env = servingPort env + 1 := by
      simp [flaskPort, hf3]
    rw [hstart]
    simp [hf1, hf2, hfp]

/-- Witness for claim C9: forced port 9000 with configured port 8081 binds
9000; no forced port binds 8081; Flask without an explicit port binds the
serving port plus one. -/
theorem claim_C9_witness :
    Phase.webStart 9000 ∈ (start ⟨false, true, true, "/d", "/d/config.ini", "/d", true, true,
        true, true, true, true, false, true, some 9000, 8081, false, false, none⟩).1
    ∧ Phase.webStart 8081 ∈ (start ⟨false, true, true, "/d", "/d/config.ini", "/d", true, true,
        true, true, true, true, false, true, none, 8081, true, true, none⟩).1
    ∧ Phase.flaskStart 8082 ∈ (start ⟨false, true, true, "/d", "/d/config.ini", "/d", true, true,
        true, true, true, true, false, true, none, 8081, true, true, none⟩).1 := by
  have h1 := claim_C9 ⟨false, true, true, "/d", "/d/config.ini", "/d", true, true,
      true, true, true, true, false, true, some 9000, 8081, false, false, none⟩ rfl rfl rfl rfl
  have h2 := claim_C9 ⟨false, true, true, "/d", "/d/config.ini", "/d", true, true,
      true, true, true, true, false, true, none, 8081, true, true, none⟩ rfl rfl rfl rfl
  refine ⟨(h1.1 9000 rfl (by decide)).2, (h2.2.1 rfl).2, ?_⟩
  have h3 := h2.2.2 rfl rfl rfl
  simpa using h3

/-- A move whose error-oracle slot is clear and whose source exists
succeeds, changes no path other than its source and destination, leaves a
file at its destination, and removes its source. -/
theorem moveE_ok_of_isfile (err : Nat → Bool) (s : RState) (a b : String)
    (he : err s.opIdx = false) (hc : isfile s.fs a = true) :
    ∃ s1 : RState, moveE err s a b = Except.ok s1
      ∧ (∀ q, q ≠ a → q ≠ b → s1.fs q = s.fs q)
      ∧ isfile s1.fs b = true
      ∧ (a ≠ b → s1.fs a = none) := by
  rcases hopt : s.fs a with _ | c
  · simp [isfile, hopt] at hc
  · refine ⟨⟨fsSet (fsDel s.fs a) b c, s.opIdx + 1⟩, by simp [moveE, he, hopt], ?_, ?_, ?_⟩
    · intro q hqa hqb
      simp [fsSet, fsDel, hqa, hqb]
    · simp [isfile, fsSet]
    · intro hab
      simp [fsSet, fsDel, hab]

/-- When no move raises and the manifest entry's source path differs from
both of its possible destination paths, one manifest-loop iteration cannot
raise. -/
theorem restore_step_ok (err : Nat → Bool) (src_dir dst_dir tstr fname : String) (s : RState)
    (he : ∀ n, err n = false)
    (hne1 : path_join src_dir fname ≠ path_join dst_dir fname)
    (hne2 : path_join src_dir fname ≠ path_join dst_dir "sickchill.db") :
    ∃ s1, restore_step err src_dir dst_dir tstr fname s = Except.ok s1 := by
  by_cases h1 : isfile s.fs (path_join src_dir fname) = true
  case neg => exact ⟨s, by simp [restore_step, h1]⟩
  case pos =>
  have hneD : path_join src_dir fname ≠
      (if path_join src_dir fname = path_join src_dir "sickbeard.db"
       then path_join dst_dir "sickchill.db" else path_join dst_dir fname) := by
    split
    · exact hne2
    · exact hne1
  by_cases h2 : isfile s.fs
      (if path_join src_dir fname = path_join src_dir "sickbeard.db"
       then path_join dst_dir "sickchill.db" else path_join dst_dir fname) = true
  · obtain ⟨s1, heq1, hpres, hbak, _⟩ := moveE_ok_of_isfile err s _
      (path_join dst_dir (fname ++ ".bak-" ++ tstr)) (he _) h2
    have hsrc1 : isfile s1.fs (path_join src_dir fname) = true := by
      by_cases hb : path_join src_dir fname = path_join dst_dir (fname ++ ".bak-" ++ tstr)
      · rw [hb]; exact hbak
      · unfold isfile
        rw [hpres _ hneD hb]
        exact h1
    obtain ⟨s2, heq2, _⟩ := moveE_ok_of_isfile err s1 (path_join src_dir fname)
      (if path_join src_dir fname = path_join src_dir "sickbeard.db"
       then path_join dst_dir "sickchill.db" else path_join dst_dir fname) (he _) hsrc1
    exact ⟨s2, by simp [restore_step, h1, h2, heq1, heq2]⟩
  · obtain ⟨s2, heq2, _⟩ := moveE_ok_of_isfile err s (path_join src_dir fname)
      (if path_join src_dir fname = path_join src_dir "sickbeard.db"
       then path_join dst_dir "sickchill.db" else path_join dst_dir fname) (he _) h1
    exact ⟨s2, by simp [restore_step, h1, h2, heq2]⟩

/-- When no move raises and every manifest entry's source path differs from
its possible destinations, the whole manifest loop cannot raise. -/
theorem restoreLoop_ok (err : Nat → Bool) (he : ∀ n, err n = false)
    (src_dir dst_dir : String) (ts : Nat → String) (l : List String)
    (hl : ∀ f ∈ l, path_join src_dir f ≠ path_join dst_dir f
        ∧ path_join src_dir f ≠ path_join dst_dir "sickchill.db") :
    ∀ i s, ∃ s1, restoreLoop err src_dir dst_dir ts i l s = Except.ok s1 := by
  induction l with
  | nil => exact fun i s => ⟨s, rfl⟩
  | cons f rest ih =>
    intro i s
    obtain ⟨s1, h1⟩ := restore_step_ok err src_dir dst_dir (ts i) f s he
      (hl f (by simp)).1 (hl f (by simp)).2
    obtain ⟨s2, h2⟩ := ih (fun x hx => hl x (by simp [hx])) (i + 1) s1
    exact ⟨s2, by simp [restoreLoop, h1, h2]⟩

/-- With the call-site directories (`<data dir>/restore` as source, the
data dir itself as destination), `restore_db` returns `True` whenever no
move call raises. -/
theorem restore_db_ok (err : Nat → Bool) (he : ∀ n, err n = false)
    (ts : Nat → String) (fs : Fs) :
    (restore_db err "restore" "data" ts fs).1 = true := by
  obtain ⟨s1, h1⟩ := restoreLoop_ok err he "restore" "data" ts files_list
    (by
      intro f hf
      simp only [files_list, List.mem_cons, List.not_mem_nil, or_false] at hf
      rcases hf with rfl | rfl | rfl | rfl | rfl <;> exact ⟨by decide, by decide⟩)
    0 ⟨fs, 0⟩
  by_cases h2 : (isfile s1.fs (path_join "data" "sickbeard.db")
      && !(isfile s1.fs (path_join "data" "sickchill.db"))) = true
  · have hsb : isfile s1.fs (path_join "data" "sickbeard.db") = true :=
      (Bool.and_eq_true _ _).mp h2 |>.1
    obtain ⟨s2, heq2, _⟩ := moveE_ok_of_isfile err s1 (path_join "data" "sickbeard.db")
      (path_join "data" "sickchill.db") (he _) hsb
    simp [restore_db, h1, h2, heq2]
  · simp [restore_db, h1, h2]



/-- Claim C5: `restore_db` returns a boolean — `True` when the whole
manifest sequence completes without an exception and `False` when one
occurs (so an exception never propagates to the caller, the function being
total into `Bool × Fs`); and on failure the files already moved stay
moved: in the concrete failing run, the legacy database has already been
moved into place and stays there, while `config.ini`, whose move raised,
is left unmoved in the source directory — nothing is rolled back. -/
theorem claim_C5 :
    (∀ (err : Nat → Bool) (ts : Nat → String) (fs : Fs), (∀ n, err n = false) →
        (restore_db err "restore" "data" ts fs).1 = true)
    ∧ (∀ (err : Nat → Bool) (ts : Nat → String) (fs : Fs),
        (restore_db err "restore" "data" ts fs).1 = false → ∃ n, err n = true)
    ∧ ((restore_db errAt2 "restore" "data" (fun _ => "T") fsC5).1 = false
       ∧ (restore_db errAt2 "restore" "data" (fun _ => "T") fsC5).2 "data/sickchill.db" = some "A"
       ∧ (restore_db errAt2 "restore" "data" (fun _ => "T") fsC5).2 "data/sickbeard.db.bak-T"
           = some "B"
       ∧ (restore_db errAt2 "restore" "data" (fun _ => "T") fsC5).2 "restore/config.ini"
           = some "C"
       ∧ (restore_db errAt2 "restore" "data" (fun _ => "T") fsC5).2 "data/config.ini" = none) := by
  refine ⟨fun err ts fs he => restore_db_ok err he ts fs, ?_, ?_⟩
  · intro err ts fs hfalse
    by_cases hall : ∀ n, err n = false
    · rw [restore_db_ok err hall ts fs] at hfalse
      cases hfalse
    · push_neg at hall
      obtain ⟨n, hn⟩ := hall
      exact ⟨n, by simpa using hn⟩
  · refine ⟨by decide, by decide, by decide, by decide, by decide⟩

/-- Witness for claim C5: a raise-free run on the concrete filesystem
returns `True`. -/
theorem claim_C5_witness :
    (restore_db noerr "restore" "data" (fun _ => "T") fsC5).1 = true :=
  claim_C5.1 noerr (fun _ => "T") fsC5 (fun _ => rfl)



/-- Computing the concrete C1 run: the source legacy database lands at
`data/sickchill.db` and the displaced original destination content lands
at `data/sickbeard.db.bak-<timestamp>` — a backup named after the
manifest entry `sickbeard.db`, not after the destination file. -/
theorem restore_fsC1_eq :
    (restore_db noerr "restore" "data" (fun _ => "20240101_120000") fsC1).2 = fsC1res := by
  funext p
  by_cases h1 : p = "data/sickchill.db"
  · subst h1; decide
  · by_cases h2 : p = "data/sickbeard.db.bak-20240101_120000"
    · subst h2; decide
    · by_cases h3 : p = "restore/sickbeard.db"
      · subst h3; decide
      · simp [restore_db, restoreLoop, restore_step, moveE, noerr, files_list, isfile,
          path_join, fsSet, fsDel, fsC1, fsC1res, h1, h2, h3]

/-- Claim C1, counterexample: the claim as stated is false.  In the run
from `fsC1` every loop iteration reads the same timestamp, so every
possible backup name is known; the run succeeds and moves the source
`sickbeard.db` content into `data/sickchill.db`, but no file named
`sickchill.db.bak-<timestamp>` exists afterwards — the original
destination content `B` is only at `data/sickbeard.db.bak-<timestamp>`,
because `bak_file` is derived from the manifest filename (`sickbeard.db`),
not from the redirected destination filename. -/
theorem claim_C1_counterexample :
    (restore_db noerr "restore" "data" (fun _ => "20240101_120000") fsC1).1 = true
    ∧ (restore_db noerr "restore" "data" (fun _ => "20240101_120000") fsC1).2
        "data/sickchill.db" = some "A"
    ∧ (restore_db noerr "restore" "data" (fun _ => "20240101_120000") fsC1).2
        "data/sickchill.db.bak-20240101_120000" = none
    ∧ (restore_db noerr "restore" "data" (fun _ => "20240101_120000") fsC1).2
        "data/sickbeard.db.bak-20240101_120000" = some "B"
    ∧ (∀ p, (restore_db noerr "restore" "data" (fun _ => "20240101_120000") fsC1).2 p
          = some "B" → p = "data/sickbeard.db.bak-20240101_120000") := by
  refine ⟨by decide, ?_, ?_, ?_, ?_⟩
  · rw [restore_fsC1_eq]; decide
  · rw [restore_fsC1_eq]; decide
  · rw [restore_fsC1_eq]; decide
  · intro p hp
    rw [restore_fsC1_eq] at hp
    unfold fsC1res at hp
    split_ifs at hp with h1 h2
    · exact absurd hp (by decide)
    · exact h2

/-- Claim C1 (amended): for every restore call whose source directory
contains `sickbeard.db` (content `A`) and none of the other manifest
files, whose destination directory contains an existing `sickchill.db`
(content `B`), and whose first-iteration backup name collides with none of
the involved paths, the run succeeds, the destination `sickchill.db`
afterwards holds `A`, and the original destination content `B` is backed
up — under the name `sickbeard.db.bak-<timestamp>` (the manifest entry's
name plus the `.bak-` timestamp suffix), not under the destination's own
name. -/
theorem claim_C1 (fs : Fs) (ts : Nat → String) (A B : String)
    (hsb : fs "restore/sickbeard.db" = some A)
    (hsc : fs "restore/sickchill.db" = none)
    (hci : fs "restore/config.ini" = none)
    (hfd : fs "restore/failed.db" = none)
    (hcd : fs "restore/cache.db" = none)
    (hdst : fs "data/sickchill.db" = some B)
    (hb1 : "data/" ++ ("sickbeard.db.bak-" ++ ts 0) ≠ "restore/sickbeard.db")
    (hb2 : "data/" ++ ("sickbeard.db.bak-" ++ ts 0) ≠ "restore/sickchill.db")
    (hb3 : "data/" ++ ("sickbeard.db.bak-" ++ ts 0) ≠ "restore/config.ini")
    (hb4 : "data/" ++ ("sickbeard.db.bak-" ++ ts 0) ≠ "restore/failed.db")
    (hb5 : "data/" ++ ("sickbeard.db.bak-" ++ ts 0) ≠ "restore/cache.db")
    (hb6 : "data/" ++ ("sickbeard.db.bak-" ++ ts 0) ≠ "data/sickchill.db") :
    (restore_db noerr "restore" "data" ts fs).1 = true
    ∧ (restore_db noerr "restore" "data" ts fs).2 "data/sickchill.db" = some A
    ∧ (restore_db noerr "restore" "data" ts fs).2 ("data/" ++ ("sickbeard.db.bak-" ++ ts 0))
        = some B := by
  have hb1s := Ne.symm hb1
  have hb2s := Ne.symm hb2
  have hb3s := Ne.symm hb3
  have hb4s := Ne.symm hb4
  have hb5s := Ne.symm hb5
  have hb6s := Ne.symm hb6
  simp [restore_db, restoreLoop, restore_step, moveE, noerr, files_list, isfile, path_join,
    fsSet, fsDel, hsb, hsc, hci, hfd, hcd, hdst,
    hb1, hb2, hb3, hb4, hb5, hb6, hb1s, hb2s, hb3s, hb4s, hb5s, hb6s]

/-- Witness for claim C1 at the concrete scenario `fsC1`. -/
theorem claim_C1_witness :
    fsC1 "restore/sickbeard.db" = some "A"
    ∧ ((restore_db noerr "restore" "data" (fun _ => "20240102_000000") fsC1).1 = true
       ∧ (restore_db noerr "restore" "data" (fun _ => "20240102_000000") fsC1).2
           "data/sickchill.db" = some "A"
       ∧ (restore_db noerr "restore" "data" (fun _ => "20240102_000000") fsC1).2
           ("data/" ++ ("sickbeard.db.bak-" ++ "20240102_000000")) = some "B") :=
  ⟨rfl, claim_C1 fsC1 (fun _ => "20240102_000000") "A" "B" rfl rfl rfl rfl rfl rfl
    (by decide) (by decide) (by decide) (by decide) (by decide) (by decide)⟩

/-- Claim C6: (first part) a `sickbeard.db` in the source directory is
moved into the destination directory under the current name
`sickchill.db`; (second part) after the manifest loop, if the destination
directory holds a `sickbeard.db` but no `sickchill.db`, the legacy file is
renamed to `sickchill.db`. -/
theorem claim_C6 :
    (∀ (fs : Fs) (ts : Nat → String) (A : String),
      fs "restore/sickbeard.db" = some A →
      fs "restore/sickchill.db" = none →
      fs "restore/config.ini" = none →
      fs "restore/failed.db" = none →
      fs "restore/cache.db" = none →
      fs "data/sickchill.db" = none →
      (restore_db noerr "restore" "data" ts fs).1 = true
      ∧ (restore_db noerr "restore" "data" ts fs).2 "data/sickchill.db" = some A
      ∧ (restore_db noerr "restore" "data" ts fs).2 "restore/sickbeard.db" = none)
    ∧ (∀ (fs : Fs) (ts : Nat → String) (C : String),
      fs "restore/sickbeard.db" = none →
      fs "restore/sickchill.db" = none →
      fs "restore/config.ini" = none →
      fs "restore/failed.db" = none →
      fs "restore/cache.db" = none →
      fs "data/sickbeard.db" = some C →
      fs "data/sickchill.db" = none →
      (restore_db noerr "restore" "data" ts fs).1 = true
      ∧ (restore_db noerr "restore" "data" ts fs).2 "data/sickchill.db" = some C
      ∧ (restore_db noerr "restore" "data" ts fs).2 "data/sickbeard.db" = none) := by
  constructor
  · intro fs ts A hsb hsc hci hfd hcd hdst
    simp [restore_db, restoreLoop, restore_step, moveE, noerr, files_list, isfile, path_join,
      fsSet, fsDel, hsb, hsc, hci, hfd, hcd, hdst]
  · intro fs ts C hsb hsc hci hfd hcd hdb hdst
    simp [restore_db, restoreLoop, restore_step, moveE, noerr, files_list, isfile, path_join,
      fsSet, fsDel, hsb, hsc, hci, hfd, hcd, hdb, hdst]

/-- Witness for claim C6: both parts applied at concrete filesystems. -/
theorem claim_C6_witness :
    ((restore_db noerr "restore" "data" (fun _ => "T")
        (fun p => if p = "restore/sickbeard.db" then some "A" else none)).2
      "data/sickchill.db" = some "A")
    ∧ ((restore_db noerr "restore" "data" (fun _ => "T")
        (fun p => if p = "data/sickbeard.db" then some "C" else none)).2
      "data/sickchill.db" = some "C") :=
  ⟨(claim_C6.1 (fun p => if p = "restore/sickbeard.db" then some "A" else none)
      (fun _ => "T") "A" rfl rfl rfl rfl rfl rfl).2.1,
   (claim_C6.2 (fun p => if p = "data/sickbeard.db" then some "C" else none)
      (fun _ => "T") "C" rfl rfl rfl rfl rfl rfl rfl).2.1⟩

/-- Claim C10: the manifest is processed in the fixed order
`[sickbeard.db, sickchill.db, config.ini, failed.db, cache.db]`, so when
the source directory contains both `sickbeard.db` (content `A`) and
`sickchill.db` (content `S`) and no move raises, the later manifest entry
wins: the final destination `sickchill.db` holds `S`, while `A` — which
iteration 0 had placed at the destination — ends up in the timestamped
backup `sickchill.db.bak-<timestamp of iteration 1>`.  The initial
destination `sickchill.db` may be present or absent. -/
theorem claim_C10 (fs : Fs) (ts : Nat → String) (A S : String)
    (hsb : fs "restore/sickbeard.db" = some A)
    (hsc : fs "restore/sickchill.db" = some S)
    (hci : fs "restore/config.ini" = none)
    (hfd : fs "restore/failed.db" = none)
    (hcd : fs "restore/cache.db" = none)
    (hq1 : "restore/sickbeard.db" ≠ "data/" ++ ("sickbeard.db.bak-" ++ ts 0))
    (hq2 : "restore/sickchill.db" ≠ "data/" ++ ("sickbeard.db.bak-" ++ ts 0))
    (hq3 : "restore/sickchill.db" ≠ "data/" ++ ("sickchill.db.bak-" ++ ts 1))
    (hq4 : "restore/config.ini" ≠ "data/" ++ ("sickbeard.db.bak-" ++ ts 0))
    (hq5 : "restore/config.ini" ≠ "data/" ++ ("sickchill.db.bak-" ++ ts 1))
    (hq6 : "restore/failed.db" ≠ "data/" ++ ("sickbeard.db.bak-" ++ ts 0))
    (hq7 : "restore/failed.db" ≠ "data/" ++ ("sickchill.db.bak-" ++ ts 1))
    (hq8 : "restore/cache.db" ≠ "data/" ++ ("sickbeard.db.bak-" ++ ts 0))
    (hq9 : "restore/cache.db" ≠ "data/" ++ ("sickchill.db.bak-" ++ ts 1))
    (hq10 : "data/" ++ ("sickchill.db.bak-" ++ ts 1) ≠ "data/sickchill.db")
    (hq11 : "data/" ++ ("sickchill.db.bak-" ++ ts 1) ≠ "data/" ++ ("sickbeard.db.bak-" ++ ts 0)) :
    (restore_db noerr "restore" "data" ts fs).1 = true
    ∧ (restore_db noerr "restore" "data" ts fs).2 "data/sickchill.db" = some S
    ∧ (restore_db noerr "restore" "data" ts fs).2 ("data/" ++ ("sickchill.db.bak-" ++ ts 1))
        = some A := by
  have hq1s := Ne.symm hq1
  have hq2s := Ne.symm hq2
  have hq3s := Ne.symm hq3
  have hq4s := Ne.symm hq4
  have hq5s := Ne.symm hq5
  have hq6s := Ne.symm hq6
  have hq7s := Ne.symm hq7
  have hq8s := Ne.symm hq8
  have hq9s := Ne.symm hq9
  have hq10s := Ne.symm hq10
  have hq11s := Ne.symm hq11
  rcases hB : fs "data/sickchill.db" with _ | B <;>
    simp [restore_db, restoreLoop, restore_step, moveE, noerr, files_list, isfile, path_join,
      fsSet, fsDel, hsb, hsc, hci, hfd, hcd, hB,
      hq1, hq2, hq3, hq4, hq5, hq6, hq7, hq8, hq9, hq10, hq11,
      hq1s, hq2s, hq3s, hq4s, hq5s, hq6s, hq7s, hq8s, hq9s, hq10s, hq11s]


/-- Witness for claim C10 at the concrete scenario `fsC10` with distinct
per-iteration timestamps. -/
theorem claim_C10_witness :
    (restore_db noerr "restore" "data" (fun n => if n = 1 then "T1" else "T0") fsC10).1 = true
    ∧ (restore_db noerr "restore" "data" (fun n => if n = 1 then "T1" else "T0") fsC10).2
        "data/sickchill.db" = some "S"
    ∧ (restore_db noerr "restore" "data" (fun n => if n = 1 then "T1" else "T0") fsC10).2
        ("data/" ++ ("sickchill.db.bak-" ++ "T1")) = some "A" := by
  have h := claim_C10 fsC10 (fun n => if n = 1 then "T1" else "T0") "A" "S"
    rfl rfl rfl rfl rfl
    (by decide) (by decide) (by decide) (by decide) (by decide) (by decide)
    (by decide) (by decide) (by decide) (by decide) (by decide)
  simpa using h

end SickChillProof
